import Mathlib

/-!
Shallow embedding of the security core of the `ltijs` Consumer
(`src/Consumer/Consumer.js`): login-request validation, deep-linking
response validation, ID-token building, access-token issuance and
validation, and the nonce replay ledger.

JavaScript objects become Lean structures; fields that may be absent
become `Option`; JS truthiness of optional strings (`!x` is true for
`undefined`, `null` and `""`) is the `truthy` predicate below.  Thrown
`Error(msg)` values become the `JsError` inductive; each constructor
mirrors one distinct message thrown by the source.  The mutable nonce
collection (`Database.get` / `Database.insert` on `'nonce'`) is threaded
explicitly as a `List String`.  JWTs are modelled as payloads paired with
the key that signed them; `jwt.verify` succeeds exactly when the
verification key equals the signing key (and the token is unexpired,
where an expiry is set).
-/

namespace Ltijs

/-- JS truthiness of an optional string: `!x` is true when `x` is
`undefined`/`null` or the empty string. -/
def truthy : Option String → Bool
  | none => false
  | some s => !(s == "")

/-- Character-level worker for `jsSplit`. -/
def splitAux (sep : Char) : List Char → List Char → List String
  | [], acc => [String.mk acc.reverse]
  | c :: cs, acc =>
    if c = sep then String.mk acc.reverse :: splitAux sep cs []
    else splitAux sep cs (c :: acc)

/-- JS `String.prototype.split` with a one-character separator: splits
at every occurrence of the separator, keeping empty pieces. -/
def jsSplit (s : String) (sep : Char) : List String := splitAux sep s.data []

instance {ε α : Type} [DecidableEq ε] [DecidableEq α] : DecidableEq (Except ε α)
  | .error x, .error y =>
    if h : x = y then isTrue (by rw [h]) else isFalse (fun hh => by cases hh; exact h rfl)
  | .error _, .ok _ => isFalse (fun hh => by cases hh)
  | .ok _, .error _ => isFalse (fun hh => by cases hh)
  | .ok x, .ok y =>
    if h : x = y then isTrue (by rw [h]) else isFalse (fun hh => by cases hh; exact h rfl)

/-- Modelled from the spec: the launch message types of the
`GlobalUtils/Helpers/messageTypes` helper (not under `src/`): a core
resource launch, a deep-linking launch, and the deep-linking response
type.  The source only compares them for equality. -/
inductive MessageType where
  | coreLaunch
  | deepLinkingLaunch
  | deepLinkingResponse
deriving DecidableEq

/-- Modelled from the spec: the privacy levels of the
`GlobalUtils/Helpers/privacy` helper (not under `src/`): `INHERIT`,
`NONE`, `EMAIL`, `NAME`, `COMPLETE`.  The source only compares them for
equality. -/
inductive PrivacyLevel where
  | inheritLevel
  | noneLevel
  | email
  | nameLevel
  | complete
deriving DecidableEq

/-- A JS value appearing in an `aud` claim: either a single string or an
array of strings (`Array.isArray` distinguishes the two). -/
inductive Aud where
  | str (s : String)
  | arr (l : List String)
deriving DecidableEq

/-- Every distinct error thrown by the modelled source functions.
`typeErrorNullDecode` stands for the JS `TypeError` raised when a field
of `null` is read after `jwt.decode` returned `null`. -/
inductive JsError where
  | missingLtiMessageHintClaim
  | invalidMessageHintClaim
  | missingNonceClaim
  | nonceAlreadyReceived
  | invalidScopeClaim
  | invalidResponseTypeClaim
  | invalidResponseModeClaim
  | invalidPromptClaim
  | missingClientIdClaim
  | invalidClientIdClaim
  | missingLtiDeploymentIdClaim
  | invalidLtiDeploymentIdClaim
  | missingRedirectUriClaim
  | invalidRedirectUriClaim
  | missingLoginHintClaim
  | missingJwtParameter
  | toolNotFound
  | missingKidParameter
  | keysetNotFound
  | keyNotFound
  | authconfigNotFound
  | invalidSignature
  | invalidAudClaim
  | invalidDeploymentIdClaim
  | invalidMessageTypeClaim
  | invalidVersionClaim
  | invalidGrantTypeClaim
  | invalidClientAssertionTypeClaim
  | invalidClientId
  | missingScopeClaim
  | unauthorizedScope (scope : String)
  | missingClientAssertionClaim
  | invalidAccessToken
  | missingAuthorizationHeader
  | invalidAuthorizationHeader
  | missingLoginRequestParameter
  | missingIdtokenParameter
  | invalidToolLinkId
  | typeErrorNullDecode
deriving DecidableEq

/-- A token signed with a symmetric key (the consumer encryption key):
the payload together with the key that produced the signature. -/
structure SignedJwt (α : Type) where
  payload : α
  key : String
deriving DecidableEq

/-- Payload of the self-signed `lti_message_hint` launch-hint token. -/
structure MessageHint where
  toolLink : Option String
  resource : Option String
  type : MessageType
deriving DecidableEq

/-- A Tool authentication configuration (`tool.authConfig()`): a method
name (`'JWK_SET' | 'JWK_KEY' | 'RSA_KEY'`) and optional key material. -/
structure AuthConfig where
  method : String
  key : Option String
deriving DecidableEq

/-- An entry of a remote JWK set: key id and the key it converts to
(`Jwk.export` is modelled as reading the `pem` field). -/
structure JwkKey where
  kid : String
  pem : String
deriving DecidableEq

/-- A registered Tool, the fields of the external `Tool` class read by
the modelled functions. -/
structure Tool where
  deploymentId : String
  redirectionURIs : List String
  scopes : List String
  privacy : PrivacyLevel
  customParameters : List (String × String)
  name : String
  authConfig : AuthConfig
  privateKey : String
  kid : String
deriving DecidableEq

/-- A registered Tool Link, the fields of the external `ToolLink` class
read by `buildIdToken`. -/
structure ToolLink where
  url : String
  privacy : PrivacyLevel
  customParameters : List (String × String)
deriving DecidableEq

/-- Header of a Tool-issued JWT as read by `jwt.decode(.., complete)`. -/
structure JwtHeader where
  alg : String
  kid : Option String
deriving DecidableEq

/-- A compact JWT issued by a Tool: decoded header, decoded payload, and
the key that actually signed it (signature verification succeeds exactly
when the resolved verification key equals `signedWith`). -/
structure ToolJwt (α : Type) where
  header : JwtHeader
  payload : α
  signedWith : String
deriving DecidableEq

/-- Payload of a service access token (`accessTokenPayload` in the
source). -/
structure AccessTokenPayload where
  clientId : String
  scopes : String
deriving DecidableEq

/-- A signed access token as produced by `jwt.sign(payload, key,
{ expiresIn: 3600 })`: payload, signing key and absolute expiry. -/
structure AccessJwt where
  payload : AccessTokenPayload
  key : String
  exp : Nat
deriving DecidableEq

/-- The external collaborators of the core: the Tool and ToolLink
registries, remote JWK-set fetching (`got.get(url).json().keys`), and
compact-JWT parsing for access tokens presented as strings. -/
structure Env where
  tools : String → Option Tool
  toolLinks : String → Option ToolLink
  keysets : Option String → Option (List JwkKey)
  parseJwt : String → Option AccessJwt

/-- Consumer configuration object (`this.#consumer`): the configured
URL, the origin produced by `url.parse`/`url.format` round trips, and
the service routes. -/
structure Consumer where
  url : String
  origin : String
  accesstokenRoute : String
  deepLinkingRequestRoute : String
  membershipsRoute : String
deriving DecidableEq

/-- Translation of the module-level `verifyToken` helper: dispatches on
`authConfig.method`, resolves a verification key, and verifies the
signature with the algorithm taken from the decoded header. -/
def verifyToken {α : Type} (token : ToolJwt α) (tool : Tool) (alg : String)
    (kid : Option String) (env : Env) : Except JsError α :=
  let authConfig := tool.authConfig
  if authConfig.method = "JWK_SET" then
    if !(truthy kid) then .error .missingKidParameter
    else
      match env.keysets authConfig.key with
      | none => .error .keysetNotFound
      | some keyset =>
        match keyset.find? (fun k => some k.kid == kid) with
        | none => .error .keyNotFound
        | some jwk =>
          if token.signedWith = jwk.pem ∧ token.header.alg = alg then .ok token.payload
          else .error .invalidSignature
  else if authConfig.method = "JWK_KEY" then
    match authConfig.key with
    | none => .error .keyNotFound
    | some k =>
      if k = "" then .error .keyNotFound
      else if token.signedWith = k ∧ token.header.alg = alg then .ok token.payload
      else .error .invalidSignature
  else if authConfig.method = "RSA_KEY" then
    match authConfig.key with
    | none => .error .keyNotFound
    | some k =>
      if k = "" then .error .keyNotFound
      else if token.signedWith = k ∧ token.header.alg = alg then .ok token.payload
      else .error .invalidSignature
  else .error .authconfigNotFound

/-- Translation of `getScopeCode`: find the key of `validScopes` whose
value equals the requested scope value. -/
def getScopeCode (validScopes : List (String × String)) (value : String) : Option String :=
  (validScopes.find? (fun p => p.2 == value)).map (fun p => p.1)

/-- The LTI 1.3 login request object (`req.query`), every parameter
optional as in JS. -/
structure LoginRequest where
  lti_message_hint : Option (SignedJwt MessageHint)
  nonce : Option String
  scope : Option String
  response_type : Option String
  response_mode : Option String
  prompt : Option String
  client_id : Option String
  lti_deployment_id : Option String
  redirect_uri : Option String
  login_hint : Option String
  state : Option String
deriving DecidableEq

/-- The `params` object of a validated login request. -/
structure LoginParams where
  user : String
  toolLink : Option String
  resource : Option String
  type : MessageType
  redirectUri : String
  state : Option String
deriving DecidableEq

/-- The service action produced by `validateLoginRequest`. -/
structure ServiceAction where
  service : String
  clientId : String
  deploymentId : String
  params : LoginParams
  dlState : Option String
deriving DecidableEq

/-- The checks of `validateLoginRequest` that follow the nonce step
(lines 768-808 of the source); they never touch the nonce store. -/
def loginRest (obj : LoginRequest) (env : Env) (messageHint : MessageHint)
    (randState : String) : Except JsError ServiceAction :=
  if obj.scope ≠ some "openid" then .error .invalidScopeClaim
  else if obj.response_type ≠ some "id_token" then .error .invalidResponseTypeClaim
  else if obj.response_mode ≠ some "form_post" then .error .invalidResponseModeClaim
  else if obj.prompt ≠ some "none" then .error .invalidPromptClaim
  else
    match obj.client_id with
    | none => .error .missingClientIdClaim
    | some cid =>
      if cid = "" then .error .missingClientIdClaim
      else
        match env.tools cid with
        | none => .error .invalidClientIdClaim
        | some tool =>
          match obj.lti_deployment_id with
          | none => .error .missingLtiDeploymentIdClaim
          | some dep =>
            if dep = "" then .error .missingLtiDeploymentIdClaim
            else if tool.deploymentId ≠ dep then .error .invalidLtiDeploymentIdClaim
            else
              match obj.redirect_uri with
              | none => .error .missingRedirectUriClaim
              | some ru =>
                if ru = "" then .error .missingRedirectUriClaim
                else if !(tool.redirectionURIs.contains ru) then .error .invalidRedirectUriClaim
                else
                  match obj.login_hint with
                  | none => .error .missingLoginHintClaim
                  | some lh =>
                    if lh = "" then .error .missingLoginHintClaim
                    else
                      .ok { service := "CORE"
                            clientId := cid
                            deploymentId := dep
                            params := { user := lh
                                        toolLink := messageHint.toolLink
                                        resource := messageHint.resource
                                        type := messageHint.type
                                        redirectUri := ru
                                        state := obj.state }
                            dlState := if messageHint.type = MessageType.deepLinkingLaunch
                                       then some randState else none }

/-- Translation of `Auth.validateLoginRequest`, threading the nonce
store.  `randState` stands for the random bytes drawn for `dlState`. -/
def validateLoginRequest (obj : LoginRequest) (encryptionkey : String) (env : Env)
    (randState : String) (store : List String) :
    Except JsError ServiceAction × List String :=
  match obj.lti_message_hint with
  | none => (.error .missingLtiMessageHintClaim, store)
  | some hint =>
    if hint.key ≠ encryptionkey then (.error .invalidMessageHintClaim, store)
    else
      match obj.nonce with
      | none => (.error .missingNonceClaim, store)
      | some n =>
        if n = "" then (.error .missingNonceClaim, store)
        else if store.contains n then (.error .nonceAlreadyReceived, store)
        else (loginRest obj env hint.payload randState, n :: store)

/-- Verified claims of a Tool's deep-linking response JWT. -/
structure DLPayload where
  iss : String
  nonce : Option String
  aud : Aud
  deployment_id : Option String
  message_type : Option MessageType
  version : Option String
  deploymentId : Option String
  content_items : Option String
  msg : Option String
  log : Option String
  errormsg : Option String
  errorlog : Option String
deriving DecidableEq

/-- Body of a deep-linking response POST: the `JWT` field. -/
structure DLBody where
  JWT : Option (ToolJwt DLPayload)
deriving DecidableEq

/-- Query parameters of a deep-linking response. -/
structure DLQuery where
  contextId : Option String
  dlState : Option String
deriving DecidableEq

/-- The `params` object of a validated deep-linking response. -/
structure DLParams where
  deploymentId : Option String
  contentItems : Option String
  message : Option String
  log : Option String
  error : Option String
  errorLog : Option String
  contextId : Option String
  state : Option String
deriving DecidableEq

/-- The service action produced by `validateDeepLinkingRequest`. -/
structure DLServiceAction where
  service : String
  clientId : String
  params : DLParams
deriving DecidableEq

/-- The checks of `validateDeepLinkingRequest` that follow the nonce
step (lines 833-857 of the source); they never touch the nonce store. -/
def dlRest (verified : DLPayload) (tool : Tool) (consumer : Consumer)
    (query : DLQuery) : Except JsError DLServiceAction :=
  if verified.aud ≠ Aud.str consumer.url then .error .invalidAudClaim
  else if verified.deployment_id ≠ some tool.deploymentId then .error .invalidDeploymentIdClaim
  else if verified.message_type ≠ some MessageType.deepLinkingResponse then .error .invalidMessageTypeClaim
  else if verified.version ≠ some "1.3.0" then .error .invalidVersionClaim
  else
    .ok { service := "DEEPLINKING"
          clientId := verified.iss
          params := { deploymentId := verified.deploymentId
                      contentItems := verified.content_items
                      message := verified.msg
                      log := verified.log
                      error := verified.errormsg
                      errorLog := verified.errorlog
                      contextId := query.contextId
                      state := query.dlState } }

/-- Translation of `Auth.validateDeepLinkingRequest`, threading the
nonce store.  The nonce-ledger step runs only when the verified claims
carry a truthy `nonce`. -/
def validateDeepLinkingRequest (obj : DLBody) (query : DLQuery) (consumer : Consumer)
    (env : Env) (store : List String) :
    Except JsError DLServiceAction × List String :=
  match obj.JWT with
  | none => (.error .missingJwtParameter, store)
  | some token =>
    match env.tools token.payload.iss with
    | none => (.error .toolNotFound, store)
    | some tool =>
      match verifyToken token tool token.header.alg token.header.kid env with
      | .error e => (.error e, store)
      | .ok verified =>
        match verified.nonce with
        | none => (dlRest verified tool consumer query, store)
        | some n =>
          if n = "" then (dlRest verified tool consumer query, store)
          else if store.contains n then (.error .nonceAlreadyReceived, store)
          else (dlRest verified tool consumer query, n :: store)

/-- Payload of the client assertion JWT in an access-token grant. -/
structure AssertionPayload where
  sub : String
  aud : Aud
deriving DecidableEq

/-- Body of an access-token request. -/
structure AccessTokenBody where
  grant_type : Option String
  client_assertion_type : Option String
  client_assertion : Option (ToolJwt AssertionPayload)
  scope : Option String
deriving DecidableEq

/-- Response of a successful access-token grant. -/
structure AccessTokenResponse where
  access_token : AccessJwt
  token_type : String
  expires_in : Nat
  scope : String
deriving DecidableEq

/-- The `for (const scope of scopes)` loop of `generateAccessToken`:
the first requested scope value that maps to no known code, or to a
code the Tool is not authorized for. -/
def findOffendingScope (validScopes : List (String × String)) (toolScopes : List String) :
    List String → Option String
  | [] => none
  | v :: rest =>
    match getScopeCode validScopes v with
    | none => some v
    | some code =>
      if toolScopes.contains code then findOffendingScope validScopes toolScopes rest
      else some v

/-- Translation of `Auth.generateAccessToken`.  `jwt.decode` of an
absent `client_assertion` returns `null` in JS, and reading
`decoded.payload` then raises a `TypeError`, modelled by
`typeErrorNullDecode`.  The audience dispatch copies the source's
`if (Array.isArray(aud) && !aud.includes(u)) ... else if (aud !== u)`
shape exactly.  `now` is the issuance instant. -/
def generateAccessToken (body : AccessTokenBody) (consumer : Consumer)
    (encryptionkey : String) (env : Env) (validScopes : List (String × String))
    (now : Nat) : Except JsError AccessTokenResponse :=
  if body.grant_type ≠ some "client_credentials" then .error .invalidGrantTypeClaim
  else if body.client_assertion_type ≠ some "urn:ietf:params:oauth:client-assertion-type:jwt-bearer" then
    .error .invalidClientAssertionTypeClaim
  else
    match body.client_assertion with
    | none => .error .typeErrorNullDecode
    | some decoded =>
      match env.tools decoded.payload.sub with
      | none => .error .invalidClientId
      | some tool =>
        match body.scope with
        | none => .error .missingScopeClaim
        | some s =>
          if s = "" then .error .missingScopeClaim
          else
            let scopes := jsSplit s ' '
            let toolScopes := tool.scopes
            match findOffendingScope validScopes toolScopes scopes with
            | some v => .error (.unauthorizedScope v)
            | none =>
              let accesstokenURL := consumer.origin ++ consumer.accesstokenRoute
              if (match decoded.payload.aud with
                  | Aud.arr l => !(l.contains accesstokenURL)
                  | Aud.str _ => false) then .error .invalidAudClaim
              else if decoded.payload.aud ≠ Aud.str accesstokenURL then .error .invalidAudClaim
              else
                match verifyToken decoded tool decoded.header.alg decoded.header.kid env with
                | .error e => .error e
                | .ok _ =>
                  .ok { access_token := { payload := { clientId := decoded.payload.sub, scopes := s }
                                          key := encryptionkey
                                          exp := now + 3600 }
                        token_type := "bearer"
                        expires_in := 3600
                        scope := s }

/-- The verified access context returned by `validateAccessToken`: the
token payload with the Tool's current privacy level attached. -/
structure VerifiedAccess where
  clientId : String
  scopes : String
  privacy : PrivacyLevel
deriving DecidableEq

/-- Translation of `Auth.validateAccessToken`: verify the compact token
against the consumer encryption key and expiry, require the requested
scope among the token's granted scopes, then require the owning Tool to
still authorize the corresponding scope code. -/
def validateAccessToken (token : String) (scope : String) (encryptionkey : String)
    (env : Env) (validScopes : List (String × String)) (now : Nat) :
    Except JsError VerifiedAccess :=
  match env.parseJwt token with
  | none => .error .invalidAccessToken
  | some t =>
    if t.key ≠ encryptionkey ∨ t.exp ≤ now then .error .invalidAccessToken
    else
      let verified := t.payload
      let scopes := jsSplit verified.scopes ' '
      if !(scopes.contains scope) then .error (.unauthorizedScope scope)
      else
        match env.tools verified.clientId with
        | none => .error .toolNotFound
        | some tool =>
          let toolScopes := tool.scopes
          match getScopeCode validScopes scope with
          | none => .error (.unauthorizedScope scope)
          | some code =>
            if !(toolScopes.contains code) then .error (.unauthorizedScope scope)
            else .ok { clientId := verified.clientId
                       scopes := verified.scopes
                       privacy := tool.privacy }

/-- Translation of the `validateAccessToken` wrapper installed in
`Consumer.setup` (lines 261-268): parses the `Authorization` header and
forwards the token to `Auth.validateAccessToken` only when the header
has exactly two space-separated parts whose first part is the literal
`'Bearer'` or `'bearer'`. -/
def serviceValidateAccessToken (authorization : Option String) (scope : String)
    (encryptionkey : String) (env : Env) (validScopes : List (String × String))
    (now : Nat) : Except JsError VerifiedAccess :=
  match authorization with
  | none => .error .missingAuthorizationHeader
  | some auth =>
    if auth = "" then .error .missingAuthorizationHeader
    else
      match jsSplit auth ' ' with
      | [sch, tok] =>
        if sch = "Bearer" ∨ sch = "bearer" then
          validateAccessToken tok scope encryptionkey env validScopes now
        else .error .invalidAuthorizationHeader
      | _ => .error .invalidAuthorizationHeader

/-- Context data carried in the `_idtoken.launch.context` input. -/
structure ContextData where
  id : String
  label : String
  title : String
  type : String
deriving DecidableEq

/-- User identity data carried in `_idtoken.user`. -/
structure UserData where
  roles : List String
  email : String
  given_name : String
  family_name : String
  name : String
deriving DecidableEq

/-- Launch data carried in `_idtoken.launch`. -/
structure LaunchData where
  context : ContextData
  resource : Option String
deriving DecidableEq

/-- The identity-data input of `buildIdToken` (`_idtoken`). -/
structure IdTokenInput where
  user : UserData
  launch : LaunchData
deriving DecidableEq

/-- The deep-linking settings claim. -/
structure DLSettings where
  deep_link_return_url : String
  accept_types : List String
  accept_presentation_document_targets : List String
  accept_multiple : Bool
  auto_create : Bool
  title : String
deriving DecidableEq

/-- The names-and-roles provisioning service claim. -/
structure NRPSClaim where
  context_memberships_url : String
  service_versions : List String
deriving DecidableEq

/-- The claim set of a built ID Token; claims the source only sets on
some branches are `Option` fields. -/
structure IdTokenClaims where
  iss : String
  aud : String
  deployment_id : String
  sub : String
  roles : List String
  context : ContextData
  version : String
  nonce : String
  message_type : MessageType
  custom : List (String × String)
  deep_linking_settings : Option DLSettings
  target_link_uri : Option String
  resource_link : Option String
  email : Option String
  given_name : Option String
  family_name : Option String
  name : Option String
  namesroleservice : Option NRPSClaim
deriving DecidableEq

/-- The signed ID Token produced by `jwt.sign(idtoken, privateKey,
{ algorithm: RS256, expiresIn: 24h, keyid: tool.kid })`. -/
structure SignedIdToken where
  payload : IdTokenClaims
  key : String
  alg : String
  kid : String
deriving DecidableEq

/-- JS object spread `{ ...a, ...b }` on string-keyed parameter maps:
entries of `b` override entries of `a` with the same key. -/
def spreadMerge (a b : List (String × String)) : List (String × String) :=
  a.filter (fun p => !(b.any (fun q => q.1 == p.1))) ++ b

/-- Translation of `Auth.buildIdToken`.  `freshNonce` stands for the
random nonce claim the source draws.  The deep-linking branch gates the
email/name claims on the Tool's privacy level; the resource-launch
branch resolves the effective level from the ToolLink, falling back to
the Tool when the ToolLink level is `INHERIT`. -/
def buildIdToken (serviceAction : Option ServiceAction) (idtokenInput : Option IdTokenInput)
    (consumer : Consumer) (env : Env) (freshNonce : String) :
    Except JsError SignedIdToken :=
  match serviceAction with
  | none => .error .missingLoginRequestParameter
  | some sa =>
    match idtokenInput with
    | none => .error .missingIdtokenParameter
    | some it =>
      match env.tools sa.clientId with
      | none => .error .invalidClientIdClaim
      | some tool =>
        let base : IdTokenClaims :=
          { iss := consumer.url
            aud := sa.clientId
            deployment_id := sa.deploymentId
            sub := sa.params.user
            roles := it.user.roles
            context := it.launch.context
            version := "1.3.0"
            nonce := freshNonce
            message_type := sa.params.type
            custom := []
            deep_linking_settings := none
            target_link_uri := none
            resource_link := none
            email := none
            given_name := none
            family_name := none
            name := none
            namesroleservice := none }
        let withBranch : Except JsError IdTokenClaims :=
          if sa.params.type = MessageType.deepLinkingLaunch then
            let deepLinkingReturnUrl :=
              consumer.origin ++ consumer.deepLinkingRequestRoute ++ "?contextId=" ++
                it.launch.context.id ++ "&dlState=" ++ (sa.dlState.getD "")
            let settings : DLSettings :=
              { deep_link_return_url := deepLinkingReturnUrl
                accept_types := ["ltiResourceLink"]
                accept_presentation_document_targets := ["iframe", "window"]
                accept_multiple := false
                auto_create := false
                title := tool.name }
            let t1 := { base with
                        custom := tool.customParameters
                        deep_linking_settings := some settings }
            let t2 := if tool.privacy = PrivacyLevel.complete ∨ tool.privacy = PrivacyLevel.email
                      then { t1 with email := some it.user.email } else t1
            let t3 := if tool.privacy = PrivacyLevel.complete ∨ tool.privacy = PrivacyLevel.nameLevel
                      then { t2 with given_name := some it.user.given_name
                                     family_name := some it.user.family_name
                                     name := some it.user.name } else t2
            .ok t3
          else
            match (match sa.params.toolLink with
                   | none => none
                   | some tlid => env.toolLinks tlid) with
            | none => .error .invalidToolLinkId
            | some toolLink =>
              let t1 := { base with
                          custom := spreadMerge tool.customParameters toolLink.customParameters
                          target_link_uri := some toolLink.url
                          resource_link := it.launch.resource }
              let priv := if toolLink.privacy = PrivacyLevel.inheritLevel then tool.privacy
                          else toolLink.privacy
              let t2 := if priv = PrivacyLevel.complete ∨ priv = PrivacyLevel.email
                        then { t1 with email := some it.user.email } else t1
              let t3 := if priv = PrivacyLevel.complete ∨ priv = PrivacyLevel.nameLevel
                        then { t2 with given_name := some it.user.given_name
                                       family_name := some it.user.family_name
                                       name := some it.user.name } else t2
              .ok t3
        match withBranch with
        | .error e => .error e
        | .ok claims =>
          let nrps : NRPSClaim :=
            { context_memberships_url :=
                consumer.origin ++ consumer.membershipsRoute ++ "/" ++ it.launch.context.id
              service_versions := ["2.0"] }
          let claims2 :=
            if tool.scopes.contains "MEMBERSHIPS" then
              { claims with namesroleservice := some nrps }
            else claims
          .ok { payload := claims2
                key := tool.privateKey
                alg := "RS256"
                kid := tool.kid }

/-- Progress of one concurrent caller through the check-then-insert
nonce sequence of `validateLoginRequest` /
`validateDeepLinkingRequest`: `await Database.get('nonce', ...)` then
`await Database.insert('nonce', ...)`, with a scheduling point between
the two awaited calls. -/
inductive CallerPhase where
  | start
  | checked (seen : Bool)
  | done (accepted : Bool)
deriving DecidableEq

/-- State of two callers racing on the same nonce over the shared
store. -/
structure RaceState where
  store : List String
  a : CallerPhase
  b : CallerPhase
deriving DecidableEq

/-- One atomic database operation of a caller: the `get` observes
whether the nonce is present; the subsequent step inserts and succeeds
when the earlier `get` saw the nonce absent, and fails with
`NONCE_ALREADY_RECEIVED` otherwise. -/
def stepCaller (n : String) (store : List String) :
    CallerPhase → CallerPhase × List String
  | .start => (.checked (store.contains n), store)
  | .checked seen =>
    if seen then (.done false, store) else (.done true, n :: store)
  | .done r => (.done r, store)

/-- Run an interleaving of the two callers: `true` schedules caller
`a`'s next database operation, `false` schedules caller `b`'s. -/
def runSchedule (n : String) : List Bool → RaceState → RaceState
  | [], st => st
  | c :: rest, st =>
    if c then
      let (a, store) := stepCaller n st.store st.a
      runSchedule n rest { st with a := a, store := store }
    else
      let (b, store) := stepCaller n st.store st.b
      runSchedule n rest { st with b := b, store := store }

/-- A requested scope value passes the `generateAccessToken` loop: it
maps to a known scope code that the Tool's authorized scopes contain. -/
def scopePasses (validScopes : List (String × String)) (toolScopes : List String)
    (v : String) : Prop :=
  ∃ c, getScopeCode validScopes v = some c ∧ toolScopes.contains c = true

/-- The effective privacy of a resource launch (source line 926):
the ToolLink's own level unless it is `INHERIT`, in which case the
Tool's level applies. -/
def effPrivacy (toolLink : ToolLink) (tool : Tool) : PrivacyLevel :=
  if toolLink.privacy = PrivacyLevel.inheritLevel then tool.privacy else toolLink.privacy

/- Concrete fixtures used to evaluate the model at specific inputs. -/

/-- A sample RSA-key authentication configuration. -/
def sampleAuthConfig : AuthConfig := { method := "RSA_KEY", key := some "toolkey1" }

/-- A sample registered Tool. -/
def sampleTool : Tool :=
  { deploymentId := "dep1"
    redirectionURIs := ["https://tool.example.com/launch"]
    scopes := ["MEMBERSHIPS"]
    privacy := PrivacyLevel.complete
    customParameters := []
    name := "Tool One"
    authConfig := sampleAuthConfig
    privateKey := "toolprivate1"
    kid := "kid1" }

/-- A sample environment registering `sampleTool` under client id
`client1`. -/
def sampleEnv : Env :=
  { tools := fun c => if c = "client1" then some sampleTool else none
    toolLinks := fun _ => none
    keysets := fun _ => none
    parseJwt := fun _ => none }

/-- A sample consumer configuration. -/
def sampleConsumer : Consumer :=
  { url := "https://lms.example.com"
    origin := "https://lms.example.com"
    accesstokenRoute := "/accesstoken"
    deepLinkingRequestRoute := "/deeplinking"
    membershipsRoute := "/memberships" }

/-- A sample scope table with one known scope. -/
def sampleValidScopes : List (String × String) := [("MEMBERSHIPS", "memberships")]

/-- A launch hint signed with the sample encryption key `enckey`. -/
def sampleHint : SignedJwt MessageHint :=
  { payload := { toolLink := some "link1", resource := none, type := MessageType.coreLaunch }
    key := "enckey" }

/-- A login request that is well-formed up to and including the client
id check but carries no `lti_deployment_id`. -/
def c1Request : LoginRequest :=
  { lti_message_hint := some sampleHint
    nonce := some "n1"
    scope := some "openid"
    response_type := some "id_token"
    response_mode := some "form_post"
    prompt := some "none"
    client_id := some "client1"
    lti_deployment_id := none
    redirect_uri := some "https://tool.example.com/launch"
    login_hint := some "user1"
    state := none }

/-- A client assertion whose audience is an array containing exactly
the consumer's access-token endpoint URL, signed with the sample
Tool's registered RSA key. -/
def c4Assertion : ToolJwt AssertionPayload :=
  { header := { alg := "RS256", kid := some "kid1" }
    payload := { sub := "client1", aud := Aud.arr ["https://lms.example.com/accesstoken"] }
    signedWith := "toolkey1" }

/-- An access-token request carrying `c4Assertion`. -/
def c4Body : AccessTokenBody :=
  { grant_type := some "client_credentials"
    client_assertion_type := some "urn:ietf:params:oauth:client-assertion-type:jwt-bearer"
    client_assertion := some c4Assertion
    scope := some "memberships" }

/-- An access-token request with correct grant and assertion types but
no `client_assertion`. -/
def c8Body : AccessTokenBody :=
  { grant_type := some "client_credentials"
    client_assertion_type := some "urn:ietf:params:oauth:client-assertion-type:jwt-bearer"
    client_assertion := none
    scope := some "memberships" }

/-- A valid, unexpired sample access token granting the `memberships`
scope value to `client1`. -/
def sampleAccessJwt : AccessJwt :=
  { payload := { clientId := "client1", scopes := "memberships" }
    key := "enckey"
    exp := 1000 }

/-- The sample environment extended so that the compact token string
`tok1` parses to `sampleAccessJwt`. -/
def tokenEnv : Env :=
  { sampleEnv with parseJwt := fun s => if s = "tok1" then some sampleAccessJwt else none }

/-- A client assertion for `client1` with a singular matching audience,
signed with the sample Tool's registered RSA key. -/
def c6Assertion : ToolJwt AssertionPayload :=
  { header := { alg := "RS256", kid := some "kid1" }
    payload := { sub := "client1", aud := Aud.str "https://lms.example.com/accesstoken" }
    signedWith := "toolkey1" }

/-- An access-token request asking for `memberships unknown_scope`. -/
def c6Body : AccessTokenBody :=
  { grant_type := some "client_credentials"
    client_assertion_type := some "urn:ietf:params:oauth:client-assertion-type:jwt-bearer"
    client_assertion := some c6Assertion
    scope := some "memberships unknown_scope" }

/-- A ToolLink with its own `EMAIL` privacy level. -/
def c5ToolLink : ToolLink :=
  { url := "https://tool.example.com/launch"
    privacy := PrivacyLevel.email
    customParameters := [] }

/-- The sample environment extended with `c5ToolLink` under id
`link1`. -/
def c5Env : Env :=
  { sampleEnv with toolLinks := fun i => if i = "link1" then some c5ToolLink else none }

/-- A validated resource-launch service action for `client1` targeting
`link1`. -/
def c5SA : ServiceAction :=
  { service := "CORE"
    clientId := "client1"
    deploymentId := "dep1"
    params := { user := "user1"
                toolLink := some "link1"
                resource := none
                type := MessageType.coreLaunch
                redirectUri := "https://tool.example.com/launch"
                state := none }
    dlState := none }

/-- Sample identity data for building an ID token. -/
def c5It : IdTokenInput :=
  { user := { roles := ["Learner"]
              email := "ada@example.com"
              given_name := "Ada"
              family_name := "Lovelace"
              name := "Ada Lovelace" }
    launch := { context := { id := "ctx1", label := "L1", title := "T1", type := "CourseSection" }
                resource := some "res1" } }

/- Theorems -/

/-- C2: the nonce check-and-record step is a separate `Database.get`
followed by `Database.insert`; under the interleaving in which both
callers run their existence check before either inserts, two
simultaneous presentations of the same nonce BOTH succeed, violating
the atomicity invariant. -/
theorem nonce_check_and_record_not_atomic :
    (runSchedule "n1" [true, false, true, false]
        { store := [], a := CallerPhase.start, b := CallerPhase.start }).a =
      CallerPhase.done true ∧
    (runSchedule "n1" [true, false, true, false]
        { store := [], a := CallerPhase.start, b := CallerPhase.start }).b =
      CallerPhase.done true := by
  decide

/-- C4: an access-token grant whose client assertion's `aud` is an
array containing exactly the consumer's access-token endpoint URL is
rejected with `INVALID_AUD_CLAIM`: the `else if (aud !== url)` branch
runs for every array audience, because an array never strictly equals a
string. -/
theorem array_audience_rejected :
    generateAccessToken c4Body sampleConsumer "enckey" sampleEnv sampleValidScopes 0 =
      Except.error JsError.invalidAudClaim ∧
    c4Assertion.payload.aud =
      Aud.arr [sampleConsumer.origin ++ sampleConsumer.accesstokenRoute] := by
  decide

/-- C8: an access-token request with the correct grant and assertion
types but no `client_assertion` fails with the JS `TypeError` raised by
reading `decoded.payload` of the `null` returned by `jwt.decode`, not
with `MISSING_CLIENT_ASSERTION_CLAIM`: the presence check at source
line 1007 sits after the decode and is unreachable for an absent
assertion. -/
theorem missing_assertion_raises_type_error :
    generateAccessToken c8Body sampleConsumer "enckey" sampleEnv sampleValidScopes 0 =
      Except.error JsError.typeErrorNullDecode ∧
    JsError.typeErrorNullDecode ≠ JsError.missingClientAssertionClaim := by
  decide

set_option maxHeartbeats 1000000 in
/-- A helper fact: the post-nonce checks of `validateLoginRequest`
never produce the replay error. -/
theorem loginRest_ne_nonceAlreadyReceived (obj : LoginRequest) (env : Env)
    (mh : MessageHint) (r : String) :
    loginRest obj env mh r ≠ Except.error JsError.nonceAlreadyReceived := by
  unfold loginRest
  repeat' split
  all_goals simp

/-- C1 (counterexample): a login request well-formed up to the client
id check but missing `lti_deployment_id` fails with the deployment-id
error, yet the nonce store HAS been changed by the failed call: the
nonce was recorded before the deployment-id check ran. -/
theorem c1_nonce_stored_despite_deployment_failure :
    validateLoginRequest c1Request "enckey" sampleEnv "rand1" [] =
      (Except.error JsError.missingLtiDeploymentIdClaim, ["n1"]) ∧
    ["n1"] ≠ ([] : List String) := by
  decide

/-- C1 (amended): a login request whose parameters preceding
`lti_deployment_id` are well-formed but whose `lti_deployment_id` is
absent fails with the deployment-id error, AFTER the nonce check has
run and recorded the request's nonce: the nonce store gains the nonce. -/
theorem login_missing_deployment_id_after_nonce_recorded
    (obj : LoginRequest) (encryptionkey randState : String) (env : Env)
    (store : List String) (hint : SignedJwt MessageHint) (n cid : String) (tool : Tool)
    (hhint : obj.lti_message_hint = some hint) (hkey : hint.key = encryptionkey)
    (hnonce : obj.nonce = some n) (hne : n ≠ "") (hfresh : store.contains n = false)
    (hscope : obj.scope = some "openid") (hrt : obj.response_type = some "id_token")
    (hrm : obj.response_mode = some "form_post") (hp : obj.prompt = some "none")
    (hcid : obj.client_id = some cid) (hcidne : cid ≠ "")
    (htool : env.tools cid = some tool)
    (hdep : truthy obj.lti_deployment_id = false) :
    validateLoginRequest obj encryptionkey env randState store =
      (Except.error JsError.missingLtiDeploymentIdClaim, n :: store) := by
  have hmem : n ∉ store := by simpa using hfresh
  cases hdep2 : obj.lti_deployment_id with
  | none =>
    simp [validateLoginRequest, loginRest, hhint, hkey, hnonce, hne, hmem,
          hscope, hrt, hrm, hp, hcid, hcidne, htool, hdep2]
  | some d =>
    have hd : d = "" := by
      rw [hdep2] at hdep
      simpa [truthy] using hdep
    simp [validateLoginRequest, loginRest, hhint, hkey, hnonce, hne, hmem,
          hscope, hrt, hrm, hp, hcid, hcidne, htool, hdep2, hd]

/-- C1 (witness): the amended theorem applied to the concrete request
`c1Request` over the empty nonce store. -/
theorem login_missing_deployment_id_witness :
    validateLoginRequest c1Request "enckey" sampleEnv "rand1" [] =
      (Except.error JsError.missingLtiDeploymentIdClaim, "n1" :: []) :=
  login_missing_deployment_id_after_nonce_recorded c1Request "enckey" "rand1" sampleEnv
    [] sampleHint "n1" "client1" sampleTool rfl rfl rfl (by decide) (by decide)
    rfl rfl rfl rfl rfl (by decide) (by decide) (by decide)

/-- C9 (counterexample): an `Authorization` header using the scheme
spelling `BEARER` is rejected with `INVALID_AUTHORIZATION_HEADER`, even
though the carried token would validate: only the exact spellings
`Bearer` and `bearer` reach the access-token validation step. -/
theorem c9_uppercase_bearer_rejected :
    serviceValidateAccessToken (some "BEARER tok1") "memberships" "enckey" tokenEnv
        sampleValidScopes 0 =
      Except.error JsError.invalidAuthorizationHeader ∧
    validateAccessToken "tok1" "memberships" "enckey" tokenEnv sampleValidScopes 0 =
      Except.ok { clientId := "client1", scopes := "memberships",
                  privacy := PrivacyLevel.complete } := by
  decide

/-- C9 (amended): scheme matching of the `Authorization` header is
exact, not case-insensitive: a two-part header whose first part is the
literal `Bearer` or `bearer` reaches `Auth.validateAccessToken` with
the second part as token, and a two-part header with any other first
part fails with `INVALID_AUTHORIZATION_HEADER`. -/
theorem bearer_scheme_requires_exact_spelling
    (auth sch tok scope encryptionkey : String) (env : Env)
    (validScopes : List (String × String)) (now : Nat)
    (hne : auth ≠ "") (hsplit : jsSplit auth ' ' = [sch, tok]) :
    ((sch = "Bearer" ∨ sch = "bearer") →
      serviceValidateAccessToken (some auth) scope encryptionkey env validScopes now =
        validateAccessToken tok scope encryptionkey env validScopes now) ∧
    (sch ≠ "Bearer" → sch ≠ "bearer" →
      serviceValidateAccessToken (some auth) scope encryptionkey env validScopes now =
        Except.error JsError.invalidAuthorizationHeader) := by
  constructor
  · intro h
    rcases h with h | h <;>
      simp [serviceValidateAccessToken, hne, hsplit, h]
  · intro h1 h2
    simp [serviceValidateAccessToken, hne, hsplit, h1, h2]

/-- C9 (witness): the amended theorem applied to the headers
`bearer tok1` (reaches validation) at concrete arguments. -/
theorem bearer_scheme_witness :
    ((("bearer" : String) = "Bearer" ∨ ("bearer" : String) = "bearer") →
      serviceValidateAccessToken (some "bearer tok1") "memberships" "enckey" tokenEnv
          sampleValidScopes 0 =
        validateAccessToken "tok1" "memberships" "enckey" tokenEnv sampleValidScopes 0) ∧
    (("bearer" : String) ≠ "Bearer" → ("bearer" : String) ≠ "bearer" →
      serviceValidateAccessToken (some "bearer tok1") "memberships" "enckey" tokenEnv
          sampleValidScopes 0 =
        Except.error JsError.invalidAuthorizationHeader) :=
  bearer_scheme_requires_exact_spelling "bearer tok1" "bearer" "tok1" "memberships"
    "enckey" tokenEnv sampleValidScopes 0 (by decide) (by decide)

/-- C3: sequentially, a fresh nonce presented in a login request is
recorded and passes the nonce check, and every later presentation of
the same nonce — through `validateLoginRequest` or through
`validateDeepLinkingRequest` — fails with `NONCE_ALREADY_RECEIVED` and
leaves the nonce store unchanged, so a nonce value is accepted at most
once across the ledger's lifetime. -/
theorem nonce_accepted_at_most_once
    (obj : LoginRequest) (encryptionkey randState : String) (env : Env)
    (store : List String) (hint : SignedJwt MessageHint) (n : String)
    (hhint : obj.lti_message_hint = some hint) (hkey : hint.key = encryptionkey)
    (hnonce : obj.nonce = some n) (hne : n ≠ "") (hfresh : store.contains n = false) :
    (validateLoginRequest obj encryptionkey env randState store).2 = n :: store ∧
    (validateLoginRequest obj encryptionkey env randState store).1 ≠
      Except.error JsError.nonceAlreadyReceived ∧
    (∀ (obj₂ : LoginRequest) (r₂ : String) (hint₂ : SignedJwt MessageHint),
      obj₂.lti_message_hint = some hint₂ → hint₂.key = encryptionkey →
      obj₂.nonce = some n →
      validateLoginRequest obj₂ encryptionkey env r₂ (n :: store) =
        (Except.error JsError.nonceAlreadyReceived, n :: store)) ∧
    (∀ (body : DLBody) (query : DLQuery) (consumer : Consumer)
        (token : ToolJwt DLPayload) (tool : Tool),
      body.JWT = some token →
      env.tools token.payload.iss = some tool →
      verifyToken token tool token.header.alg token.header.kid env =
        Except.ok token.payload →
      token.payload.nonce = some n →
      validateDeepLinkingRequest body query consumer env (n :: store) =
        (Except.error JsError.nonceAlreadyReceived, n :: store)) := by
  have hmem : n ∉ store := by simpa using hfresh
  refine ⟨?_, ?_, ?_, ?_⟩
  · simp [validateLoginRequest, hhint, hkey, hnonce, hne, hmem]
  · simp only [validateLoginRequest, hhint, hkey, hnonce]
    simp [hne, hmem]
    exact loginRest_ne_nonceAlreadyReceived obj env hint.payload randState
  · intro obj₂ r₂ hint₂ hh hk hn
    simp [validateLoginRequest, hh, hk, hn, hne]
  · intro body query consumer token tool hjwt htool hver hn
    simp [validateDeepLinkingRequest, hjwt, htool, hver, hn, hne]

/-- C3 (witness): the theorem applied to the concrete request
`c1Request` with nonce `n1` over the empty store. -/
theorem nonce_accepted_at_most_once_witness :
    (validateLoginRequest c1Request "enckey" sampleEnv "rand1" []).2 = ["n1"] ∧
    (validateLoginRequest c1Request "enckey" sampleEnv "rand1" []).1 ≠
      Except.error JsError.nonceAlreadyReceived ∧
    (∀ (obj₂ : LoginRequest) (r₂ : String) (hint₂ : SignedJwt MessageHint),
      obj₂.lti_message_hint = some hint₂ → hint₂.key = "enckey" →
      obj₂.nonce = some "n1" →
      validateLoginRequest obj₂ "enckey" sampleEnv r₂ ["n1"] =
        (Except.error JsError.nonceAlreadyReceived, ["n1"])) ∧
    (∀ (body : DLBody) (query : DLQuery) (consumer : Consumer)
        (token : ToolJwt DLPayload) (tool : Tool),
      body.JWT = some token →
      sampleEnv.tools token.payload.iss = some tool →
      verifyToken token tool token.header.alg token.header.kid sampleEnv =
        Except.ok token.payload →
      token.payload.nonce = some "n1" →
      validateDeepLinkingRequest body query consumer sampleEnv ["n1"] =
        (Except.error JsError.nonceAlreadyReceived, ["n1"])) :=
  nonce_accepted_at_most_once c1Request "enckey" "rand1" sampleEnv [] sampleHint "n1"
    rfl rfl rfl (by decide) (by decide)

/-- A deep-linking response payload carrying no nonce claim. -/
def c10Payload : DLPayload :=
  { iss := "client1"
    nonce := none
    aud := Aud.str "https://lms.example.com"
    deployment_id := some "dep1"
    message_type := some MessageType.deepLinkingResponse
    version := some "1.3.0"
    deploymentId := some "dep1"
    content_items := some "items"
    msg := none
    log := none
    errormsg := none
    errorlog := none }

/-- A deep-linking response JWT carrying `c10Payload`, validly signed
with the sample Tool's registered key. -/
def c10Jwt : ToolJwt DLPayload :=
  { header := { alg := "RS256", kid := some "kid1" }
    payload := c10Payload
    signedWith := "toolkey1" }

/-- The POST body carrying `c10Jwt`. -/
def c10Body : DLBody := { JWT := some c10Jwt }

/-- Sample deep-linking query parameters. -/
def c10Query : DLQuery := { contextId := some "ctx1", dlState := some "state1" }

/-- C10: a deep-linking response whose signature verifies but whose
verified claims carry no nonce performs no nonce-ledger check and
records nothing: the store is unchanged, and the validation outcome is
the same over every store state, so the identical response can be
re-submitted and validated again any number of times. -/
theorem dl_response_without_nonce_replayable
    (body : DLBody) (query : DLQuery) (consumer : Consumer) (env : Env)
    (store : List String) (token : ToolJwt DLPayload) (tool : Tool)
    (hjwt : body.JWT = some token)
    (htool : env.tools token.payload.iss = some tool)
    (hver : verifyToken token tool token.header.alg token.header.kid env =
      Except.ok token.payload)
    (hnonce : token.payload.nonce = none) :
    (validateDeepLinkingRequest body query consumer env store).2 = store ∧
    (∀ store₂ : List String,
      validateDeepLinkingRequest body query consumer env store₂ =
        ((validateDeepLinkingRequest body query consumer env store).1, store₂)) := by
  constructor
  · simp [validateDeepLinkingRequest, hjwt, htool, hver, hnonce]
  · intro store₂
    simp [validateDeepLinkingRequest, hjwt, htool, hver, hnonce]

/-- C10 (witness): the theorem applied to the concrete nonce-free
response `c10Body` over the empty store. -/
theorem dl_response_without_nonce_replayable_witness :
    (validateDeepLinkingRequest c10Body c10Query sampleConsumer sampleEnv []).2 = [] ∧
    (∀ store₂ : List String,
      validateDeepLinkingRequest c10Body c10Query sampleConsumer sampleEnv store₂ =
        ((validateDeepLinkingRequest c10Body c10Query sampleConsumer sampleEnv []).1,
          store₂)) :=
  dl_response_without_nonce_replayable c10Body c10Query sampleConsumer sampleEnv []
    c10Jwt sampleTool (by decide) (by decide) (by decide) (by decide)

/-- A helper fact: the scope loop of `generateAccessToken` reports the
first requested value that fails to resolve to an authorized code. -/
theorem findOffendingScope_first (validScopes : List (String × String))
    (toolScopes : List String) (pre : List String) (v : String) (post : List String)
    (hpre : ∀ u ∈ pre, scopePasses validScopes toolScopes u)
    (hv : ¬ scopePasses validScopes toolScopes v) :
    findOffendingScope validScopes toolScopes (pre ++ v :: post) = some v := by
  induction pre with
  | nil =>
    cases hc : getScopeCode validScopes v with
    | none => simp [findOffendingScope, hc]
    | some c =>
      have hcontains : toolScopes.contains c = false := by
        cases hcc : toolScopes.contains c with
        | false => rfl
        | true => exact absurd ⟨c, hc, hcc⟩ hv
      have hnotmem : c ∉ toolScopes := by simpa using hcontains
      simp [findOffendingScope, hc, hnotmem]
  | cons u rest ih =>
    obtain ⟨c, hc, hmem⟩ := hpre u (by simp)
    have hmem2 : c ∈ toolScopes := by simpa using hmem
    have hrest : ∀ w ∈ rest, scopePasses validScopes toolScopes w :=
      fun w hw => hpre w (by simp [hw])
    simp [findOffendingScope, hc, hmem2, ih hrest]

/-- C6: an access-token request whose scope string contains a value
that maps to no known scope code, or to a code missing from the Tool's
authorized scopes (every earlier value being authorized), fails with
the `INVALID_SCOPE` error naming that value, and no token is issued. -/
theorem invalid_scope_fails_naming_offender
    (body : AccessTokenBody) (consumer : Consumer) (encryptionkey : String) (env : Env)
    (validScopes : List (String × String)) (now : Nat)
    (a : ToolJwt AssertionPayload) (tool : Tool) (s v : String)
    (pre post : List String)
    (hgt : body.grant_type = some "client_credentials")
    (hcat : body.client_assertion_type =
      some "urn:ietf:params:oauth:client-assertion-type:jwt-bearer")
    (ha : body.client_assertion = some a)
    (htool : env.tools a.payload.sub = some tool)
    (hs : body.scope = some s) (hsne : s ≠ "")
    (hsplit : jsSplit s ' ' = pre ++ v :: post)
    (hpre : ∀ u ∈ pre, scopePasses validScopes tool.scopes u)
    (hv : ¬ scopePasses validScopes tool.scopes v) :
    generateAccessToken body consumer encryptionkey env validScopes now =
      Except.error (JsError.unauthorizedScope v) := by
  simp [generateAccessToken, hgt, hcat, ha, htool, hs, hsne, hsplit,
        findOffendingScope_first validScopes tool.scopes pre v post hpre hv]

/-- C6 (witness): a grant requesting `memberships unknown_scope`
against a Tool authorized only for memberships fails naming
`unknown_scope`. -/
theorem invalid_scope_fails_witness :
    generateAccessToken c6Body sampleConsumer "enckey" sampleEnv sampleValidScopes 0 =
      Except.error (JsError.unauthorizedScope "unknown_scope") :=
  invalid_scope_fails_naming_offender c6Body sampleConsumer "enckey" sampleEnv
    sampleValidScopes 0 c6Assertion sampleTool "memberships unknown_scope"
    "unknown_scope" ["memberships"] [] rfl rfl rfl (by decide) rfl (by decide)
    (by decide)
    (fun u hu => by
      simp only [List.mem_singleton] at hu
      subst hu
      exact ⟨"MEMBERSHIPS", by decide, by decide⟩)
    (fun h => by
      obtain ⟨c, hc, _⟩ := h
      have hnone : getScopeCode sampleValidScopes "unknown_scope" = none := by decide
      rw [hnone] at hc
      cases hc)

/-- C7: a validly signed, unexpired access token fails validation with
the `INVALID_SCOPE` error whenever the required scope is not among the
token's granted scopes, even though the owning Tool's current scopes
authorize the corresponding code; when the token does grant the scope,
validation succeeds and returns the verified context with the Tool's
current privacy level attached. -/
theorem access_token_scope_enforced
    (tok scope encryptionkey : String) (env : Env) (validScopes : List (String × String))
    (now expiry : Nat) (payload : AccessTokenPayload) (tool : Tool) (code : String)
    (hparse : env.parseJwt tok =
      some { payload := payload, key := encryptionkey, exp := expiry })
    (hexp : now < expiry)
    (htool : env.tools payload.clientId = some tool)
    (hcode : getScopeCode validScopes scope = some code)
    (hauth : tool.scopes.contains code = true) :
    ((jsSplit payload.scopes ' ').contains scope = false →
      validateAccessToken tok scope encryptionkey env validScopes now =
        Except.error (JsError.unauthorizedScope scope)) ∧
    ((jsSplit payload.scopes ' ').contains scope = true →
      validateAccessToken tok scope encryptionkey env validScopes now =
        Except.ok { clientId := payload.clientId, scopes := payload.scopes,
                    privacy := tool.privacy }) := by
  have hnexp : ¬ (expiry ≤ now) := Nat.not_le.mpr hexp
  have hauth2 : code ∈ tool.scopes := by simpa using hauth
  constructor
  · intro hmem
    have hmem2 : scope ∉ jsSplit payload.scopes ' ' := by simpa using hmem
    simp [validateAccessToken, hparse, hnexp, hmem2]
  · intro hmem
    have hmem2 : scope ∈ jsSplit payload.scopes ' ' := by simpa using hmem
    simp [validateAccessToken, hparse, hnexp, hmem2, htool, hcode, hauth2]

/-- C7 (witness): the theorem applied to the concrete token `tok1` of
`tokenEnv` and the scope value `memberships`. -/
theorem access_token_scope_enforced_witness :
    ((jsSplit sampleAccessJwt.payload.scopes ' ').contains "memberships" = false →
      validateAccessToken "tok1" "memberships" "enckey" tokenEnv sampleValidScopes 0 =
        Except.error (JsError.unauthorizedScope "memberships")) ∧
    ((jsSplit sampleAccessJwt.payload.scopes ' ').contains "memberships" = true →
      validateAccessToken "tok1" "memberships" "enckey" tokenEnv sampleValidScopes 0 =
        Except.ok { clientId := sampleAccessJwt.payload.clientId,
                    scopes := sampleAccessJwt.payload.scopes,
                    privacy := sampleTool.privacy }) :=
  access_token_scope_enforced "tok1" "memberships" "enckey" tokenEnv sampleValidScopes
    0 1000 sampleAccessJwt.payload sampleTool "MEMBERSHIPS" (by decide) (by decide)
    (by decide) (by decide) (by decide)

/-- C5: in `buildIdToken` for a resource launch, the effective privacy
level is the ToolLink's own level unless that level is `INHERIT`, in
which case the Tool's level applies; effective `EMAIL` includes the
email claim and omits the name claims, `NAME` includes the name claims
and omits email, and `COMPLETE` includes all four. -/
theorem effective_privacy_gates_identity_claims
    (sa : ServiceAction) (it : IdTokenInput) (consumer : Consumer) (env : Env)
    (freshNonce : String) (tool : Tool) (tlid : String) (toolLink : ToolLink)
    (htool : env.tools sa.clientId = some tool)
    (htype : sa.params.type ≠ MessageType.deepLinkingLaunch)
    (htlid : sa.params.toolLink = some tlid)
    (htl : env.toolLinks tlid = some toolLink) :
    (effPrivacy toolLink tool = PrivacyLevel.email →
      Except.map
          (fun s => (s.payload.email, s.payload.given_name,
                     s.payload.family_name, s.payload.name))
          (buildIdToken (some sa) (some it) consumer env freshNonce) =
        Except.ok (some it.user.email, none, none, none)) ∧
    (effPrivacy toolLink tool = PrivacyLevel.nameLevel →
      Except.map
          (fun s => (s.payload.email, s.payload.given_name,
                     s.payload.family_name, s.payload.name))
          (buildIdToken (some sa) (some it) consumer env freshNonce) =
        Except.ok (none, some it.user.given_name,
                   some it.user.family_name, some it.user.name)) ∧
    (effPrivacy toolLink tool = PrivacyLevel.complete →
      Except.map
          (fun s => (s.payload.email, s.payload.given_name,
                     s.payload.family_name, s.payload.name))
          (buildIdToken (some sa) (some it) consumer env freshNonce) =
        Except.ok (some it.user.email, some it.user.given_name,
                   some it.user.family_name, some it.user.name)) := by
  refine ⟨?_, ?_, ?_⟩ <;>
    intro heff <;>
    simp only [effPrivacy] at heff <;>
    simp [buildIdToken, htool, htype, htlid, htl, heff] <;>
    split <;>
    rfl

/-- C5 (witness): the theorem applied to the concrete resource launch
`c5SA` whose ToolLink carries its own `EMAIL` privacy level. -/
theorem effective_privacy_witness :
    (effPrivacy c5ToolLink sampleTool = PrivacyLevel.email →
      Except.map
          (fun s => (s.payload.email, s.payload.given_name,
                     s.payload.family_name, s.payload.name))
          (buildIdToken (some c5SA) (some c5It) sampleConsumer c5Env "nonce1") =
        Except.ok (some c5It.user.email, none, none, none)) ∧
    (effPrivacy c5ToolLink sampleTool = PrivacyLevel.nameLevel →
      Except.map
          (fun s => (s.payload.email, s.payload.given_name,
                     s.payload.family_name, s.payload.name))
          (buildIdToken (some c5SA) (some c5It) sampleConsumer c5Env "nonce1") =
        Except.ok (none, some c5It.user.given_name,
                   some c5It.user.family_name, some c5It.user.name)) ∧
    (effPrivacy c5ToolLink sampleTool = PrivacyLevel.complete →
      Except.map
          (fun s => (s.payload.email, s.payload.given_name,
                     s.payload.family_name, s.payload.name))
          (buildIdToken (some c5SA) (some c5It) sampleConsumer c5Env "nonce1") =
        Except.ok (some c5It.user.email, some c5It.user.given_name,
                   some c5It.user.family_name, some c5It.user.name)) :=
  effective_privacy_gates_identity_claims c5SA c5It sampleConsumer c5Env "nonce1"
    sampleTool "link1" c5ToolLink (by decide) (by decide) (by decide) (by decide)

end Ltijs
